import Mathlib

/-!
Shallow embedding of `src/server/src/config.rs` (TUIC server configuration
parsing), for verifying the natural-language specification of the crate.

Modelling conventions:

* Rust machine integers become `Nat` with explicit bounds (`u16` means
  `n < 2^16`, and so on; `usize` is modelled as 64-bit, the crate's target).
* Fallible Rust functions returning `Result<T, ConfigError>` become
  `Except ConfigError T`.
* The `getopts` crate is an external collaborator: its result, a
  `getopts::Matches` over the option set declared in `RawConfig::parse`,
  is modelled by the structure `Matches` below (one field per declared
  option; `free` holds the leftover positional tokens).  Failures of
  `opts.parse` itself surface upstream as `ConfigError::ParseArgument`
  and are not modelled here.
* The filesystem is a parameter `fs : String → Option Json`: `fs path`
  is `none` when opening the file fails and `some j` when the file's
  contents parse (by `serde_json`, external) to the JSON value `j`.
  JSON numbers are modelled as integers: none of the integer fields of
  the schema accepts a fractional number anyway.
* Certificate loading, `rustls`/`quinn` server-config construction, and
  the `blake3` hash are external collaborators per the spec, passed to
  `Config.parse` as parameters.
-/

deriving instance DecidableEq for Except

/-- Rust type `log::LevelFilter` (six ordered verbosity levels). -/
inductive LevelFilter where
  | off
  | error
  | warn
  | info
  | debug
  | trace
deriving DecidableEq, Repr

/-- Enum `CongestionController` from `config.rs` (three variants). -/
inductive CongestionController where
  | cubic
  | newReno
  | bbr
deriving DecidableEq, Repr

/-- Error enum `ConfigError` from `config.rs`.  Payloads that only wrap external
errors (`IoError`, `JsonError`, `Fail`, `ParseIntError`, `ParseLevelError`,
`RustlsError`) are reduced to the data the claims inspect: the `Io` variant
keeps the offending path, `ParseConfigJson` keeps the message string. -/
inductive ConfigError where
  | help (usage : String)
  | version (v : String)
  | io (path : String)
  | parseConfigJson (msg : String)
  | parseArgument (msg : String)
  | unexpectedArguments (args : String)
  | missingOption (opt : String)
  | parseInt
  | invalidCongestionController
  | parseLogLevel
  | rustls
deriving DecidableEq, Repr

/-- Struct `RawConfig` from `config.rs`: the partially-populated record merged
from CLI and file. -/
structure RawConfig where
  port : Option Nat
  token : Option String
  certificate : Option String
  private_key : Option String
  congestion_controller : CongestionController
  max_idle_time : Nat
  authentication_timeout : Nat
  max_udp_packet_size : Nat
  enable_ipv6 : Bool
  log_level : LevelFilter
deriving DecidableEq, Repr

/-- Function `congestion_controller()` of `mod default` in `config.rs`. -/
def default.congestion_controller : CongestionController := CongestionController.cubic

/-- Function `max_idle_time()` of `mod default` in `config.rs`. -/
def default.max_idle_time : Nat := 15000

/-- Function `authentication_timeout()` of `mod default` in `config.rs`. -/
def default.authentication_timeout : Nat := 1000

/-- Function `max_udp_packet_size()` of `mod default` in `config.rs`. -/
def default.max_udp_packet_size : Nat := 1536

/-- Function `enable_ipv6()` of `mod default` in `config.rs`. -/
def default.enable_ipv6 : Bool := false

/-- Function `log_level()` of `mod default` in `config.rs`. -/
def default.log_level : LevelFilter := LevelFilter.info

/-- Impl `Default for RawConfig` in `config.rs`. -/
def RawConfig.default : RawConfig where
  port := none
  token := none
  certificate := none
  private_key := none
  congestion_controller := default.congestion_controller
  max_idle_time := default.max_idle_time
  authentication_timeout := default.authentication_timeout
  max_udp_packet_size := default.max_udp_packet_size
  enable_ipv6 := default.enable_ipv6
  log_level := default.log_level

/-- The result of `opts.parse(args.skip(1))` in `RawConfig::parse`: one
field for each option declared there (`opt_str` for options taking a
value, `opt_present` for the three flags), plus the leftover positional
tokens `free`. -/
structure Matches where
  help : Bool
  version : Bool
  free : List String
  config : Option String
  port : Option String
  token : Option String
  certificate : Option String
  private_key : Option String
  congestion_controller : Option String
  max_idle_time : Option String
  authentication_timeout : Option String
  max_udp_packet_size : Option String
  enable_ipv6 : Bool
  log_level : Option String
deriving DecidableEq, Repr

/-- ASCII lower-casing of one character, as `u8::to_ascii_lowercase`. -/
def asciiLower (c : Char) : Char :=
  if 'A' ≤ c ∧ c ≤ 'Z' then Char.ofNat (c.toNat + 32) else c

/-- Rust `str::eq_ignore_ascii_case`. -/
def eqIgnoreAsciiCase (s t : String) : Bool :=
  s.data.map asciiLower == t.data.map asciiLower

/-- Impl `FromStr for CongestionController` in `config.rs`. -/
def CongestionController.from_str (s : String) : Except ConfigError CongestionController :=
  if eqIgnoreAsciiCase s "cubic" then
    Except.ok CongestionController.cubic
  else if eqIgnoreAsciiCase s "new_reno" || eqIgnoreAsciiCase s "newreno" then
    Except.ok CongestionController.newReno
  else if eqIgnoreAsciiCase s "bbr" then
    Except.ok CongestionController.bbr
  else
    Except.error ConfigError.invalidCongestionController

/-- Impl `FromStr for LevelFilter` in the `log` crate: case-insensitive
match against the six level names, anything else is a `ParseLevelError`
(wrapped into `ConfigError::ParseLogLevel` by `#[from]`). -/
def LevelFilter.from_str (s : String) : Except ConfigError LevelFilter :=
  if eqIgnoreAsciiCase s "off" then Except.ok LevelFilter.off
  else if eqIgnoreAsciiCase s "error" then Except.ok LevelFilter.error
  else if eqIgnoreAsciiCase s "warn" then Except.ok LevelFilter.warn
  else if eqIgnoreAsciiCase s "info" then Except.ok LevelFilter.info
  else if eqIgnoreAsciiCase s "debug" then Except.ok LevelFilter.debug
  else if eqIgnoreAsciiCase s "trace" then Except.ok LevelFilter.trace
  else Except.error ConfigError.parseLogLevel

/-- Accumulate a list of decimal digits into a number, `none` on the
first non-digit character (radix-10 `char::to_digit`). -/
def parseDigits (cs : List Char) : Option Nat :=
  List.foldl
    (fun acc c =>
      match acc with
      | none => none
      | some a => if c.isDigit then some (a * 10 + (c.toNat - 48)) else none)
    (some 0) cs

/-- Rust's `str::parse` for an unsigned integer type with exclusive upper
bound `bound` (`u16::from_str` and friends): an optional leading `+`,
then at least one decimal digit, value below the bound; every failure
(empty digits, stray character, overflow) is a `ParseIntError`, wrapped
into `ConfigError::ParseInt` by `#[from]`. -/
def parseUnsigned (bound : Nat) (s : String) : Except ConfigError Nat :=
  let ds :=
    match s.data with
    | '+' :: rest => rest
    | cs => cs
  if ds.isEmpty then Except.error ConfigError.parseInt
  else
    match parseDigits ds with
    | none => Except.error ConfigError.parseInt
    | some n => if n < bound then Except.ok n else Except.error ConfigError.parseInt

/-- Rust `str::parse::<u16>()`. -/
def parseU16 : String → Except ConfigError Nat := parseUnsigned (2 ^ 16)

/-- Rust `str::parse::<u32>()`. -/
def parseU32 : String → Except ConfigError Nat := parseUnsigned (2 ^ 32)

/-- Rust `str::parse::<u64>()`. -/
def parseU64 : String → Except ConfigError Nat := parseUnsigned (2 ^ 64)

/-- Rust `str::parse::<usize>()` (64-bit target). -/
def parseUsize : String → Except ConfigError Nat := parseUnsigned (2 ^ 64)

example : parseU16 "443" = Except.ok 443 := by decide
example : parseU16 "65536" = Except.error ConfigError.parseInt := by decide
example : parseU16 "+12" = Except.ok 12 := by decide
example : parseU16 "-1" = Except.error ConfigError.parseInt := by decide
example : parseU16 "" = Except.error ConfigError.parseInt := by decide
example : CongestionController.from_str "BbR" = Except.ok CongestionController.bbr := by decide
example : CongestionController.from_str "turbo"
    = Except.error ConfigError.invalidCongestionController := by decide

/-- JSON values as handed to serde by `serde_json::from_reader`
(numbers restricted to integers, see the module comment). -/
inductive Json where
  | null
  | bool (b : Bool)
  | num (n : Int)
  | str (s : String)
  | arr (elems : List Json)
  | obj (fields : List (String × Json))

/-- Partial state of the serde-derived deserializer for `RawConfig`:
which fields have been seen so far, and with what decoded value.  The
outer `Option` is "field present in the JSON object"; for the four
`Option`-typed fields of `RawConfig` the decoded value is itself an
`Option` (JSON `null` decodes to `none`). -/
structure RawConfigBuilder where
  port : Option (Option Nat)
  token : Option (Option String)
  certificate : Option (Option String)
  private_key : Option (Option String)
  congestion_controller : Option CongestionController
  max_idle_time : Option Nat
  authentication_timeout : Option Nat
  max_udp_packet_size : Option Nat
  enable_ipv6 : Option Bool
  log_level : Option LevelFilter

/-- Builder with no field seen yet. -/
def RawConfigBuilder.empty : RawConfigBuilder :=
  ⟨none, none, none, none, none, none, none, none, none, none⟩

/-- Decode a JSON value as an unsigned integer below `bound`
(serde deserialization of `u16` / `u32` / `u64` / `usize`). -/
def decodeUInt (bound : Nat) : Json → Except String Nat
  | Json.num n =>
      if 0 ≤ n ∧ n < (bound : Int) then Except.ok n.toNat
      else Except.error "invalid value: integer out of range"
  | _ => Except.error "invalid type: expected an integer"

/-- Decode a JSON value as a string. -/
def decodeString : Json → Except String String
  | Json.str s => Except.ok s
  | _ => Except.error "invalid type: expected a string"

/-- Decode a JSON value as a boolean. -/
def decodeBool : Json → Except String Bool
  | Json.bool b => Except.ok b
  | _ => Except.error "invalid type: expected a boolean"

/-- Serde deserialization of `Option<T>`: `null` decodes to `None`,
anything else decodes by the inner decoder. -/
def decodeOption {α : Type} (d : Json → Except String α) : Json → Except String (Option α)
  | Json.null => Except.ok none
  | j => (d j).map some

/-- Field `congestion_controller` uses
`#[serde(deserialize_with = "deserialize_from_str")]`: decode a string,
then `CongestionController::from_str`, mapping its error to a custom
serde message (`deserialize_from_str` in `config.rs`). -/
def decodeCongestionController (j : Json) : Except String CongestionController :=
  match j with
  | Json.str s =>
      match CongestionController.from_str s with
      | Except.ok v => Except.ok v
      | Except.error _ => Except.error "Invalid congestion controller"
  | _ => Except.error "invalid type: expected a string"

/-- Serde deserialization of `log::LevelFilter` (the `log` crate's
`serde` impl): a string matched case-insensitively against the six
level names. -/
def decodeLevelFilter (j : Json) : Except String LevelFilter :=
  match j with
  | Json.str s =>
      match LevelFilter.from_str s with
      | Except.ok v => Except.ok v
      | Except.error _ => Except.error "unknown variant, expected one of the log levels"
  | _ => Except.error "invalid type: expected a string"

/-- One step of the serde-derived `Deserialize for RawConfig` with
`#[serde(deny_unknown_fields)]`: dispatch one JSON object entry to its
field slot.  A key outside the schema is a hard error; a key seen twice
is a duplicate-field error; a value of the wrong shape is a decode
error. -/
def RawConfigBuilder.setField (b : RawConfigBuilder) (k : String) (v : Json) :
    Except String RawConfigBuilder :=
  if k = "port" then
    match b.port with
    | some _ => Except.error "duplicate field port"
    | none => (decodeOption (decodeUInt (2 ^ 16)) v).map (fun x => { b with port := some x })
  else if k = "token" then
    match b.token with
    | some _ => Except.error "duplicate field token"
    | none => (decodeOption decodeString v).map (fun x => { b with token := some x })
  else if k = "certificate" then
    match b.certificate with
    | some _ => Except.error "duplicate field certificate"
    | none => (decodeOption decodeString v).map (fun x => { b with certificate := some x })
  else if k = "private_key" then
    match b.private_key with
    | some _ => Except.error "duplicate field private_key"
    | none => (decodeOption decodeString v).map (fun x => { b with private_key := some x })
  else if k = "congestion_controller" then
    match b.congestion_controller with
    | some _ => Except.error "duplicate field congestion_controller"
    | none => (decodeCongestionController v).map (fun x => { b with congestion_controller := some x })
  else if k = "max_idle_time" then
    match b.max_idle_time with
    | some _ => Except.error "duplicate field max_idle_time"
    | none => (decodeUInt (2 ^ 32) v).map (fun x => { b with max_idle_time := some x })
  else if k = "authentication_timeout" then
    match b.authentication_timeout with
    | some _ => Except.error "duplicate field authentication_timeout"
    | none => (decodeUInt (2 ^ 64) v).map (fun x => { b with authentication_timeout := some x })
  else if k = "max_udp_packet_size" then
    match b.max_udp_packet_size with
    | some _ => Except.error "duplicate field max_udp_packet_size"
    | none => (decodeUInt (2 ^ 64) v).map (fun x => { b with max_udp_packet_size := some x })
  else if k = "enable_ipv6" then
    match b.enable_ipv6 with
    | some _ => Except.error "duplicate field enable_ipv6"
    | none => (decodeBool v).map (fun x => { b with enable_ipv6 := some x })
  else if k = "log_level" then
    match b.log_level with
    | some _ => Except.error "duplicate field log_level"
    | none => (decodeLevelFilter v).map (fun x => { b with log_level := some x })
  else
    Except.error ("unknown field " ++ k)

/-- Process the entries of the JSON object in order. -/
def RawConfigBuilder.setFields : RawConfigBuilder → List (String × Json) →
    Except String RawConfigBuilder
  | b, [] => Except.ok b
  | b, (k, v) :: rest => do
      let b' ← b.setField k v
      RawConfigBuilder.setFields b' rest

/-- Finish deserialization: absent `Option` fields become `None`
(serde's implicit default for `Option`); absent defaulted fields take
the `#[serde(default = ...)]` functions of `mod default`. -/
def RawConfigBuilder.build (b : RawConfigBuilder) : RawConfig where
  port := b.port.getD none
  token := b.token.getD none
  certificate := b.certificate.getD none
  private_key := b.private_key.getD none
  congestion_controller := b.congestion_controller.getD default.congestion_controller
  max_idle_time := b.max_idle_time.getD default.max_idle_time
  authentication_timeout := b.authentication_timeout.getD default.authentication_timeout
  max_udp_packet_size := b.max_udp_packet_size.getD default.max_udp_packet_size
  enable_ipv6 := b.enable_ipv6.getD default.enable_ipv6
  log_level := b.log_level.getD default.log_level

/-- Serde-derived `Deserialize for RawConfig` applied to a JSON value;
any serde error becomes `ConfigError::ParseConfigJson` (the `#[from]`
conversion from `serde_json::Error`). -/
def RawConfig.fromJson : Json → Except ConfigError RawConfig
  | Json.obj fields =>
      match RawConfigBuilder.setFields RawConfigBuilder.empty fields with
      | Except.ok b => Except.ok b.build
      | Except.error msg => Except.error (ConfigError.parseConfigJson msg)
  | _ => Except.error (ConfigError.parseConfigJson "invalid type: expected struct RawConfig")

/-- Method `RawConfig::from_file`: open the file (failure is
`ConfigError::Io` carrying the path), then deserialize its JSON
contents. `fs` is the filesystem collaborator, see module comment. -/
def RawConfig.from_file (fs : String → Option Json) (path : String) :
    Except ConfigError RawConfig :=
  match fs path with
  | none => Except.error (ConfigError.io path)
  | some j => RawConfig.fromJson j

/-- Usage text produced by `opts.usage(env!("CARGO_PKG_NAME"))`; its
contents are generated by the external `getopts` collaborator and are
not modelled. -/
def opts_usage : String := "tuic-server usage"

/-- Version string `env!("CARGO_PKG_VERSION")`; supplied by the build
environment, contents not modelled. -/
def cargo_pkg_version : String := "CARGO_PKG_VERSION"

/-- Rust `Vec::join(", ")` as used for `matches.free.join(", ")`. -/
def joinCommaSpace : List String → String
  | [] => ""
  | [s] => s
  | s :: rest => s ++ ", " ++ joinCommaSpace rest

/-- Rust `Option::transpose` specialised to `Result`. -/
def optionTranspose {α : Type} : Option (Except ConfigError α) → Except ConfigError (Option α)
  | none => Except.ok none
  | some (Except.ok v) => Except.ok (some v)
  | some (Except.error e) => Except.error e

/-- Rust `Option::ok_or`. -/
def okOr {α : Type} (o : Option α) (e : ConfigError) : Except ConfigError α :=
  match o with
  | some v => Except.ok v
  | none => Except.error e

/-- Lines 224-248 of `config.rs` (the `if let Some(path)` branch):
merge CLI-supplied required fields over the file-derived `RawConfig`;
each required field is CLI value `or` file value, else
`MissingOption`; the CLI port string's parse result is transposed
first, so its parse error propagates before the merge. -/
def mergeWithFile (raw0 : RawConfig) (port : Option (Except ConfigError Nat))
    (token certificate private_key : Option String) : Except ConfigError RawConfig := do
  let cliPort ← optionTranspose port
  let p ← okOr (cliPort.or raw0.port) (ConfigError.missingOption "port")
  let t ← okOr (token.or raw0.token) (ConfigError.missingOption "token")
  let c ← okOr (certificate.or raw0.certificate) (ConfigError.missingOption "certificate")
  let k ← okOr (private_key.or raw0.private_key) (ConfigError.missingOption "private key")
  Except.ok { raw0 with
    port := some p, token := some t, certificate := some c, private_key := some k }

/-- Lines 250-256 of `config.rs` (the `else` branch, no config file):
all four required fields must come from the CLI (`ok_or` then `??` for
the port's parse result); the rest of the record is
`..Default::default()`. -/
def requiredFromCli (port : Option (Except ConfigError Nat))
    (token certificate private_key : Option String) : Except ConfigError RawConfig := do
  let pr ← okOr port (ConfigError.missingOption "port")
  let p ← pr
  let t ← okOr token (ConfigError.missingOption "token")
  let c ← okOr certificate (ConfigError.missingOption "certificate")
  let k ← okOr private_key (ConfigError.missingOption "private key")
  Except.ok { RawConfig.default with
    port := some p, token := some t, certificate := some c, private_key := some k }

/-- Lines 259-261 of `config.rs`: CLI `--congestion-controller`
override. -/
def overrideCongestion (o : Option String) (raw : RawConfig) : Except ConfigError RawConfig :=
  match o with
  | some s => do
      let v ← CongestionController.from_str s
      Except.ok { raw with congestion_controller := v }
  | none => Except.ok raw

/-- Lines 263-265 of `config.rs`: CLI `--max-idle-time` override. -/
def overrideMaxIdleTime (o : Option String) (raw : RawConfig) : Except ConfigError RawConfig :=
  match o with
  | some s => do
      let v ← parseU32 s
      Except.ok { raw with max_idle_time := v }
  | none => Except.ok raw

/-- Lines 267-269 of `config.rs`: CLI `--authentication-timeout`
override. -/
def overrideAuthTimeout (o : Option String) (raw : RawConfig) : Except ConfigError RawConfig :=
  match o with
  | some s => do
      let v ← parseU64 s
      Except.ok { raw with authentication_timeout := v }
  | none => Except.ok raw

/-- Lines 271-273 of `config.rs`: CLI `--max-udp-packet-size`
override. -/
def overrideMaxUdpPacketSize (o : Option String) (raw : RawConfig) : Except ConfigError RawConfig :=
  match o with
  | some s => do
      let v ← parseUsize s
      Except.ok { raw with max_udp_packet_size := v }
  | none => Except.ok raw

/-- Line 275 of `config.rs`: `raw.enable_ipv6 |= matches.opt_present("enable-ipv6")`. -/
def orEnableIpv6 (flag : Bool) (raw : RawConfig) : RawConfig :=
  { raw with enable_ipv6 := raw.enable_ipv6 || flag }

/-- Lines 277-279 of `config.rs`: CLI `--log-level` override. -/
def overrideLogLevel (o : Option String) (raw : RawConfig) : Except ConfigError RawConfig :=
  match o with
  | some s => do
      let v ← LevelFilter.from_str s
      Except.ok { raw with log_level := v }
  | none => Except.ok raw

/-- Lines 259-279 of `config.rs` as one unit: the optional-field CLI
overrides, applied in source order to the merged record. -/
def applyOverrides (m : Matches) (raw : RawConfig) : Except ConfigError RawConfig := do
  let raw ← overrideCongestion m.congestion_controller raw
  let raw ← overrideMaxIdleTime m.max_idle_time raw
  let raw ← overrideAuthTimeout m.authentication_timeout raw
  let raw ← overrideMaxUdpPacketSize m.max_udp_packet_size raw
  let raw := orEnableIpv6 m.enable_ipv6 raw
  overrideLogLevel m.log_level raw

/-- Method `RawConfig::parse` of `config.rs` (lines 129-282), starting
from the `getopts` result `m` (see `Matches`): help and version
short-circuits, the unexpected-arguments check, required-field
resolution with or without a config file, then the optional-field
overrides in source order. -/
def RawConfig.parse (fs : String → Option Json) (m : Matches) : Except ConfigError RawConfig := do
  if m.help then
    throw (ConfigError.help opts_usage)
  if m.version then
    throw (ConfigError.version cargo_pkg_version)
  if !m.free.isEmpty then
    throw (ConfigError.unexpectedArguments (joinCommaSpace m.free))
  let port := m.port.map parseU16
  let raw ←
    match m.config with
    | some path => do
        let raw0 ← RawConfig.from_file fs path
        mergeWithFile raw0 port m.token m.certificate m.private_key
    | none => requiredFromCli port m.token m.certificate m.private_key
  applyOverrides m raw

/-- Rust `std::time::Duration`, as a count of nanoseconds. -/
structure Duration where
  nanos : Nat
deriving DecidableEq, Repr

/-- Rust `Duration::from_secs`. -/
def Duration.from_secs (s : Nat) : Duration := ⟨s * 1000000000⟩

/-- Rust `Duration::from_millis`. -/
def Duration.from_millis (ms : Nat) : Duration := ⟨ms * 1000000⟩

/-- Model of the `quinn::ServerConfig` assembled in `Config::parse`:
it records the two transport parameters this crate configures (the
congestion-controller factory chosen by the `match`, and the
`max_idle_timeout` from `VarInt::from_u32(raw.max_idle_time)`); the
TLS material lives in the external `rustls` collaborator. -/
structure ServerConfig where
  congestion_controller : CongestionController
  max_idle_time : Nat
deriving DecidableEq, Repr

/-- Struct `Config` from `config.rs`: the final immutable
configuration.  The 32-byte `blake3` digest is modelled as the byte
list produced by the hash collaborator. -/
structure Config where
  server_config : ServerConfig
  port : Nat
  token_digest : List Nat
  authentication_timeout : Duration
  max_udp_packet_size : Nat
  enable_ipv6 : Bool
  log_level : LevelFilter
deriving DecidableEq, Repr

/-- Method `Config::parse` of `config.rs` (lines 28-78).  The external
collaborators are parameters: `load_certificates` and
`load_private_key` return `none` on failure (wrapped as
`ConfigError::Io` with the offending path), `with_single_cert` is
`ServerConfig::with_single_cert` returning `none` on a rustls error,
and `blake3_hash` is the `blake3` hash of the token's bytes.  The
`unwrap()` calls on the four required fields are modelled with `getD`;
`RawConfig.parse` guarantees the fields are populated on success, so
the default branch is unreachable. -/
def Config.parse {Certs Key : Type}
    (load_certificates : String → Option Certs)
    (load_private_key : String → Option Key)
    (with_single_cert : Certs → Key → Option Unit)
    (blake3_hash : String → List Nat)
    (fs : String → Option Json) (m : Matches) : Except ConfigError Config := do
  let raw ← RawConfig.parse fs m
  let cert_path := raw.certificate.getD ""
  let certs ←
    match load_certificates cert_path with
    | none => Except.error (ConfigError.io cert_path)
    | some cs => Except.ok cs
  let key_path := raw.private_key.getD ""
  let key ←
    match load_private_key key_path with
    | none => Except.error (ConfigError.io key_path)
    | some k => Except.ok k
  match with_single_cert certs key with
  | none => Except.error ConfigError.rustls
  | some _ =>
      Except.ok {
        server_config := {
          congestion_controller := raw.congestion_controller
          max_idle_time := raw.max_idle_time }
        port := raw.port.getD 0
        token_digest := blake3_hash (raw.token.getD "")
        authentication_timeout := Duration.from_secs raw.authentication_timeout
        max_udp_packet_size := raw.max_udp_packet_size
        enable_ipv6 := raw.enable_ipv6
        log_level := raw.log_level }

/-- Inversion for a successful monadic bind over `Except`. -/
theorem bind_eq_ok {ε α β : Type} {x : Except ε α} {f : α → Except ε β} {b : β} :
    (x >>= f) = Except.ok b ↔ ∃ a, x = Except.ok a ∧ f a = Except.ok b := by
  cases x <;> simp [Bind.bind, Except.bind]

/-- Characterisation of a successful `okOr`. -/
theorem okOr_eq_ok {α : Type} {o : Option α} {e : ConfigError} {a : α} :
    okOr o e = Except.ok a ↔ o = some a := by
  cases o <;> simp [okOr]

/-- Characterisation of a failed `okOr`. -/
theorem okOr_eq_error {α : Type} {o : Option α} {e e' : ConfigError} :
    okOr o e = Except.error e' ↔ o = none ∧ e' = e := by
  cases o <;> simp [okOr, eq_comm]

/-- Inversion for a successful `optionTranspose`. -/
theorem optionTranspose_eq_ok {α : Type} {o : Option (Except ConfigError α)}
    {po : Option α} (h : optionTranspose o = Except.ok po) :
    (o = none ∧ po = none) ∨ ∃ v, o = some (Except.ok v) ∧ po = some v := by
  match o with
  | none => simp [optionTranspose] at h; simp [h]
  | some (Except.ok v) => simp [optionTranspose] at h; simp [h]
  | some (Except.error e) => simp [optionTranspose] at h

/-- Inversion for a successful `overrideCongestion`: every other field
is preserved, and the congestion controller is determined by the CLI
string when one is present. -/
theorem overrideCongestion_ok_inv {o : Option String} {raw raw' : RawConfig}
    (h : overrideCongestion o raw = Except.ok raw') :
    raw'.port = raw.port ∧ raw'.token = raw.token ∧ raw'.certificate = raw.certificate ∧
    raw'.private_key = raw.private_key ∧ raw'.max_idle_time = raw.max_idle_time ∧
    raw'.authentication_timeout = raw.authentication_timeout ∧
    raw'.max_udp_packet_size = raw.max_udp_packet_size ∧
    raw'.enable_ipv6 = raw.enable_ipv6 ∧ raw'.log_level = raw.log_level ∧
    (o = none → raw'.congestion_controller = raw.congestion_controller) ∧
    (∀ s, o = some s → CongestionController.from_str s = Except.ok raw'.congestion_controller) := by
  cases o with
  | none =>
    obtain rfl : raw = raw' := by simpa [overrideCongestion] using h
    simp
  | some s =>
    cases hfs : CongestionController.from_str s with
    | error e => simp [overrideCongestion, hfs, Bind.bind, Except.bind] at h
    | ok v =>
      obtain rfl : raw' = { raw with congestion_controller := v } := by
        simpa [overrideCongestion, hfs, Bind.bind, Except.bind, eq_comm] using h
      simp [hfs]

/-- Inversion for a successful `overrideMaxIdleTime`. -/
theorem overrideMaxIdleTime_ok_inv {o : Option String} {raw raw' : RawConfig}
    (h : overrideMaxIdleTime o raw = Except.ok raw') :
    raw'.port = raw.port ∧ raw'.token = raw.token ∧ raw'.certificate = raw.certificate ∧
    raw'.private_key = raw.private_key ∧
    raw'.congestion_controller = raw.congestion_controller ∧
    raw'.authentication_timeout = raw.authentication_timeout ∧
    raw'.max_udp_packet_size = raw.max_udp_packet_size ∧
    raw'.enable_ipv6 = raw.enable_ipv6 ∧ raw'.log_level = raw.log_level ∧
    (o = none → raw'.max_idle_time = raw.max_idle_time) ∧
    (∀ s, o = some s → parseU32 s = Except.ok raw'.max_idle_time) := by
  cases o with
  | none =>
    obtain rfl : raw = raw' := by simpa [overrideMaxIdleTime] using h
    simp
  | some s =>
    cases hfs : parseU32 s with
    | error e => simp [overrideMaxIdleTime, hfs, Bind.bind, Except.bind] at h
    | ok v =>
      obtain rfl : raw' = { raw with max_idle_time := v } := by
        simpa [overrideMaxIdleTime, hfs, Bind.bind, Except.bind, eq_comm] using h
      simp [hfs]

/-- Inversion for a successful `overrideAuthTimeout`. -/
theorem overrideAuthTimeout_ok_inv {o : Option String} {raw raw' : RawConfig}
    (h : overrideAuthTimeout o raw = Except.ok raw') :
    raw'.port = raw.port ∧ raw'.token = raw.token ∧ raw'.certificate = raw.certificate ∧
    raw'.private_key = raw.private_key ∧
    raw'.congestion_controller = raw.congestion_controller ∧
    raw'.max_idle_time = raw.max_idle_time ∧
    raw'.max_udp_packet_size = raw.max_udp_packet_size ∧
    raw'.enable_ipv6 = raw.enable_ipv6 ∧ raw'.log_level = raw.log_level ∧
    (o = none → raw'.authentication_timeout = raw.authentication_timeout) ∧
    (∀ s, o = some s → parseU64 s = Except.ok raw'.authentication_timeout) := by
  cases o with
  | none =>
    obtain rfl : raw = raw' := by simpa [overrideAuthTimeout] using h
    simp
  | some s =>
    cases hfs : parseU64 s with
    | error e => simp [overrideAuthTimeout, hfs, Bind.bind, Except.bind] at h
    | ok v =>
      obtain rfl : raw' = { raw with authentication_timeout := v } := by
        simpa [overrideAuthTimeout, hfs, Bind.bind, Except.bind, eq_comm] using h
      simp [hfs]

/-- Inversion for a successful `overrideMaxUdpPacketSize`. -/
theorem overrideMaxUdpPacketSize_ok_inv {o : Option String} {raw raw' : RawConfig}
    (h : overrideMaxUdpPacketSize o raw = Except.ok raw') :
    raw'.port = raw.port ∧ raw'.token = raw.token ∧ raw'.certificate = raw.certificate ∧
    raw'.private_key = raw.private_key ∧
    raw'.congestion_controller = raw.congestion_controller ∧
    raw'.max_idle_time = raw.max_idle_time ∧
    raw'.authentication_timeout = raw.authentication_timeout ∧
    raw'.enable_ipv6 = raw.enable_ipv6 ∧ raw'.log_level = raw.log_level ∧
    (o = none → raw'.max_udp_packet_size = raw.max_udp_packet_size) ∧
    (∀ s, o = some s → parseUsize s = Except.ok raw'.max_udp_packet_size) := by
  cases o with
  | none =>
    obtain rfl : raw = raw' := by simpa [overrideMaxUdpPacketSize] using h
    simp
  | some s =>
    cases hfs : parseUsize s with
    | error e => simp [overrideMaxUdpPacketSize, hfs, Bind.bind, Except.bind] at h
    | ok v =>
      obtain rfl : raw' = { raw with max_udp_packet_size := v } := by
        simpa [overrideMaxUdpPacketSize, hfs, Bind.bind, Except.bind, eq_comm] using h
      simp [hfs]

/-- Inversion for a successful `overrideLogLevel`. -/
theorem overrideLogLevel_ok_inv {o : Option String} {raw raw' : RawConfig}
    (h : overrideLogLevel o raw = Except.ok raw') :
    raw'.port = raw.port ∧ raw'.token = raw.token ∧ raw'.certificate = raw.certificate ∧
    raw'.private_key = raw.private_key ∧
    raw'.congestion_controller = raw.congestion_controller ∧
    raw'.max_idle_time = raw.max_idle_time ∧
    raw'.authentication_timeout = raw.authentication_timeout ∧
    raw'.max_udp_packet_size = raw.max_udp_packet_size ∧
    raw'.enable_ipv6 = raw.enable_ipv6 ∧
    (o = none → raw'.log_level = raw.log_level) ∧
    (∀ s, o = some s → LevelFilter.from_str s = Except.ok raw'.log_level) := by
  cases o with
  | none =>
    obtain rfl : raw = raw' := by simpa [overrideLogLevel] using h
    simp
  | some s =>
    cases hfs : LevelFilter.from_str s with
    | error e => simp [overrideLogLevel, hfs, Bind.bind, Except.bind] at h
    | ok v =>
      obtain rfl : raw' = { raw with log_level := v } := by
        simpa [overrideLogLevel, hfs, Bind.bind, Except.bind, eq_comm] using h
      simp [hfs]

/-- Inversion for a successful `applyOverrides`: the four required
fields are untouched, `enable_ipv6` is OR-ed with the CLI flag, and
each optional field is either preserved (no CLI value) or determined by
parsing the CLI string. -/
theorem applyOverrides_ok_inv {m : Matches} {raw raw' : RawConfig}
    (h : applyOverrides m raw = Except.ok raw') :
    raw'.port = raw.port ∧ raw'.token = raw.token ∧ raw'.certificate = raw.certificate ∧
    raw'.private_key = raw.private_key ∧
    raw'.enable_ipv6 = (raw.enable_ipv6 || m.enable_ipv6) ∧
    (m.congestion_controller = none → raw'.congestion_controller = raw.congestion_controller) ∧
    (∀ s, m.congestion_controller = some s →
      CongestionController.from_str s = Except.ok raw'.congestion_controller) ∧
    (m.max_idle_time = none → raw'.max_idle_time = raw.max_idle_time) ∧
    (∀ s, m.max_idle_time = some s → parseU32 s = Except.ok raw'.max_idle_time) ∧
    (m.authentication_timeout = none →
      raw'.authentication_timeout = raw.authentication_timeout) ∧
    (∀ s, m.authentication_timeout = some s →
      parseU64 s = Except.ok raw'.authentication_timeout) ∧
    (m.max_udp_packet_size = none → raw'.max_udp_packet_size = raw.max_udp_packet_size) ∧
    (∀ s, m.max_udp_packet_size = some s →
      parseUsize s = Except.ok raw'.max_udp_packet_size) ∧
    (m.log_level = none → raw'.log_level = raw.log_level) ∧
    (∀ s, m.log_level = some s → LevelFilter.from_str s = Except.ok raw'.log_level) := by
  simp only [applyOverrides] at h
  rcases bind_eq_ok.mp h with ⟨raw1, h1, h⟩
  rcases bind_eq_ok.mp h with ⟨raw2, h2, h⟩
  rcases bind_eq_ok.mp h with ⟨raw3, h3, h⟩
  rcases bind_eq_ok.mp h with ⟨raw4, h4, h5⟩
  obtain ⟨p1, t1, c1, k1, i1, a1, u1, e1, l1, ccn1, ccs1⟩ := overrideCongestion_ok_inv h1
  obtain ⟨p2, t2, c2, k2, cc2, a2, u2, e2, l2, in2, is2⟩ := overrideMaxIdleTime_ok_inv h2
  obtain ⟨p3, t3, c3, k3, cc3, i3, u3, e3, l3, an3, as3⟩ := overrideAuthTimeout_ok_inv h3
  obtain ⟨p4, t4, c4, k4, cc4, i4, a4, e4, l4, un4, us4⟩ := overrideMaxUdpPacketSize_ok_inv h4
  obtain ⟨p5, t5, c5, k5, cc5, i5, a5, u5, e5, ln5, ls5⟩ := overrideLogLevel_ok_inv h5
  simp only [orEnableIpv6] at p5 t5 c5 k5 cc5 i5 a5 u5 e5 ln5 ls5
  refine ⟨?_, ?_, ?_, ?_, ?_, ?_, ?_, ?_, ?_, ?_, ?_, ?_, ?_, ?_, ?_⟩
  · rw [p5, p4, p3, p2, p1]
  · rw [t5, t4, t3, t2, t1]
  · rw [c5, c4, c3, c2, c1]
  · rw [k5, k4, k3, k2, k1]
  · rw [e5, e4, e3, e2, e1]
  · intro hn
    rw [cc5, cc4, cc3, cc2, ccn1 hn]
  · intro s hs
    rw [cc5, cc4, cc3, cc2]
    exact ccs1 s hs
  · intro hn
    rw [i5, i4, i3, in2 hn, i1]
  · intro s hs
    rw [i5, i4, i3]
    exact is2 s hs
  · intro hn
    rw [a5, a4, an3 hn, a2, a1]
  · intro s hs
    rw [a5, a4]
    exact as3 s hs
  · intro hn
    rw [u5, un4 hn, u3, u2, u1]
  · intro s hs
    rw [u5]
    exact us4 s hs
  · intro hn
    rw [ln5 hn, l4, l3, l2, l1]
  · intro s hs
    exact ls5 s hs

/-- Inversion for a successful `mergeWithFile`: the CLI port string
parsed (when present), each required field resolved CLI-first, and the
result is the file record with the four required fields replaced. -/
theorem mergeWithFile_ok_inv {raw0 : RawConfig} {port : Option (Except ConfigError Nat)}
    {token certificate private_key : Option String} {raw1 : RawConfig}
    (h : mergeWithFile raw0 port token certificate private_key = Except.ok raw1) :
    ∃ po p t c k, optionTranspose port = Except.ok po ∧
      po.or raw0.port = some p ∧ token.or raw0.token = some t ∧
      certificate.or raw0.certificate = some c ∧ private_key.or raw0.private_key = some k ∧
      raw1 = { raw0 with
        port := some p, token := some t, certificate := some c, private_key := some k } := by
  simp only [mergeWithFile] at h
  rcases bind_eq_ok.mp h with ⟨po, hpo, h⟩
  rcases bind_eq_ok.mp h with ⟨p, hp, h⟩
  rcases bind_eq_ok.mp h with ⟨t, ht, h⟩
  rcases bind_eq_ok.mp h with ⟨c, hc, h⟩
  rcases bind_eq_ok.mp h with ⟨k, hk, h⟩
  refine ⟨po, p, t, c, k, hpo, okOr_eq_ok.mp hp, okOr_eq_ok.mp ht, okOr_eq_ok.mp hc,
    okOr_eq_ok.mp hk, ?_⟩
  simpa [eq_comm] using h

/-- Inversion for a successful `requiredFromCli`: all four required
fields came from the CLI and the port string parsed; everything else is
the library default. -/
theorem requiredFromCli_ok_inv {port : Option (Except ConfigError Nat)}
    {token certificate private_key : Option String} {raw : RawConfig}
    (h : requiredFromCli port token certificate private_key = Except.ok raw) :
    ∃ p t c k, port = some (Except.ok p) ∧ token = some t ∧ certificate = some c ∧
      private_key = some k ∧
      raw = { RawConfig.default with
        port := some p, token := some t, certificate := some c, private_key := some k } := by
  simp only [requiredFromCli] at h
  rcases bind_eq_ok.mp h with ⟨pr, hpr, h⟩
  rcases bind_eq_ok.mp h with ⟨p, hp, h⟩
  rcases bind_eq_ok.mp h with ⟨t, ht, h⟩
  rcases bind_eq_ok.mp h with ⟨c, hc, h⟩
  rcases bind_eq_ok.mp h with ⟨k, hk, h⟩
  refine ⟨p, t, c, k, ?_, okOr_eq_ok.mp ht, okOr_eq_ok.mp hc, okOr_eq_ok.mp hk, ?_⟩
  · rw [okOr_eq_ok.mp hpr] at *
    rw [hp]
  · simpa [eq_comm] using h

/-- Once the help, version and free-argument gates pass,
`RawConfig.parse` is the required-field resolution followed by the
optional-field overrides. -/
theorem parse_reduce (fs : String → Option Json) (m : Matches)
    (hh : m.help = false) (hv : m.version = false) (hf : m.free = []) :
    RawConfig.parse fs m =
      ((match m.config with
        | some path => RawConfig.from_file fs path >>= fun raw0 =>
            mergeWithFile raw0 (m.port.map parseU16) m.token m.certificate m.private_key
        | none =>
            requiredFromCli (m.port.map parseU16) m.token m.certificate m.private_key)
        >>= applyOverrides m) := by
  simp [RawConfig.parse, hh, hv, hf]
  cases m.config with
  | none => rfl
  | some path => rw [bind_assoc]

/-- Inversion for a successful `RawConfig.parse`: a merged record
`raw1` exists, produced from the CLI alone or from a successfully read
file, to which the overrides were applied. -/
theorem parse_ok_inv {fs : String → Option Json} {m : Matches} {raw : RawConfig}
    (hh : m.help = false) (hv : m.version = false) (hf : m.free = [])
    (hok : RawConfig.parse fs m = Except.ok raw) :
    ∃ raw1,
      ((m.config = none ∧
          requiredFromCli (m.port.map parseU16) m.token m.certificate m.private_key
            = Except.ok raw1) ∨
        (∃ path raw0, m.config = some path ∧ RawConfig.from_file fs path = Except.ok raw0 ∧
          mergeWithFile raw0 (m.port.map parseU16) m.token m.certificate m.private_key
            = Except.ok raw1)) ∧
      applyOverrides m raw1 = Except.ok raw := by
  rw [parse_reduce fs m hh hv hf] at hok
  rcases bind_eq_ok.mp hok with ⟨raw1, h1, h2⟩
  cases hc : m.config with
  | none =>
    rw [hc] at h1
    exact ⟨raw1, Or.inl ⟨rfl, h1⟩, h2⟩
  | some path =>
    rw [hc] at h1
    rcases bind_eq_ok.mp h1 with ⟨raw0, hf0, hm⟩
    exact ⟨raw1, Or.inr ⟨path, raw0, rfl, hf0, hm⟩, h2⟩

/-- Filesystem with no readable files. -/
def fsEmpty : String → Option Json := fun _ => none

/-- C7: if the help flag is present, parsing short-circuits with the
Help outcome; if the version flag is present and help is not, it
short-circuits with the Version outcome — for every argument list,
before the unexpected-arguments check and before any required-field or
file validation (the matches record and the filesystem are arbitrary,
so leftover tokens, missing fields and unreadable paths do not prevent
these outcomes). -/
theorem C7_help_version_short_circuit (fs : String → Option Json) (m : Matches) :
    (m.help = true → RawConfig.parse fs m = Except.error (ConfigError.help opts_usage)) ∧
    (m.help = false → m.version = true →
      RawConfig.parse fs m = Except.error (ConfigError.version cargo_pkg_version)) := by
  constructor
  · intro h
    simp [RawConfig.parse, h, throw, throwThe, MonadExceptOf.throw, Bind.bind, Except.bind,
      pure, Except.pure]
  · intro h hv
    simp [RawConfig.parse, h, hv, throw, throwThe, MonadExceptOf.throw, Bind.bind, Except.bind,
      pure, Except.pure]

/-- Matches record with only the help flag (and a stray token and every
required field missing, to exercise the short-circuit). -/
def mHelpOnly : Matches where
  help := true
  version := true
  free := ["stray"]
  config := none
  port := none
  token := none
  certificate := none
  private_key := none
  congestion_controller := none
  max_idle_time := none
  authentication_timeout := none
  max_udp_packet_size := none
  enable_ipv6 := false
  log_level := none

/-- Matches record with only the version flag. -/
def mVersionOnly : Matches := { mHelpOnly with help := false, version := true }

/-- Witness for C7 at concrete inputs. -/
theorem C7_witness :
    RawConfig.parse fsEmpty mHelpOnly = Except.error (ConfigError.help opts_usage) ∧
    RawConfig.parse fsEmpty mVersionOnly = Except.error (ConfigError.version cargo_pkg_version) :=
  ⟨(C7_help_version_short_circuit fsEmpty mHelpOnly).1 rfl,
   (C7_help_version_short_circuit fsEmpty mVersionOnly).2 rfl rfl⟩

/-- Every member of a list is a substring of its `", "`-join. -/
theorem mem_joinCommaSpace : ∀ (xs : List String) (t : String), t ∈ xs →
    ∃ a b, joinCommaSpace xs = a ++ t ++ b := by
  intro xs
  induction xs with
  | nil =>
    intro t ht
    cases ht
  | cons x rest ih =>
    intro t ht
    cases rest with
    | nil =>
      obtain rfl : t = x := by simpa using ht
      refine ⟨"", "", ?_⟩
      simp [joinCommaSpace]
    | cons y ys =>
      rcases (by simpa using ht : t = x ∨ t ∈ y :: ys) with rfl | hmem
      · refine ⟨"", ", " ++ joinCommaSpace (y :: ys), ?_⟩
        simp [joinCommaSpace, String.append_assoc]
      · obtain ⟨a, b, hab⟩ := ih t hmem
        refine ⟨x ++ ", " ++ a, b, ?_⟩
        simp [joinCommaSpace, hab, String.append_assoc]

/-- C9: with no help or version flag, any argument list leaving at
least one positional token fails with an unexpected-arguments error
whose message (the `", "`-join of the leftover tokens) contains every
leftover token. -/
theorem C9_unexpected_arguments (fs : String → Option Json) (m : Matches)
    (hh : m.help = false) (hv : m.version = false) (hne : m.free ≠ []) :
    RawConfig.parse fs m
      = Except.error (ConfigError.unexpectedArguments (joinCommaSpace m.free)) ∧
    ∀ t ∈ m.free, ∃ a b, joinCommaSpace m.free = a ++ t ++ b := by
  constructor
  · have hne' : m.free.isEmpty = false := by
      cases hfr : m.free with
      | nil => exact absurd hfr hne
      | cons a l => simp
    simp [RawConfig.parse, hh, hv, hne', throw, throwThe, MonadExceptOf.throw,
      Bind.bind, Except.bind, pure, Except.pure]
  · intro t ht
    exact mem_joinCommaSpace m.free t ht

/-- Matches record with two stray positional tokens. -/
def mStray : Matches := { mHelpOnly with help := false, version := false, free := ["a.json", "b"] }

/-- Witness for C9 at a concrete input. -/
theorem C9_witness :
    RawConfig.parse fsEmpty mStray
      = Except.error (ConfigError.unexpectedArguments (joinCommaSpace mStray.free)) ∧
    ∃ a b, joinCommaSpace mStray.free = a ++ "b" ++ b := by
  have h := C9_unexpected_arguments fsEmpty mStray rfl rfl (by decide)
  exact ⟨h.1, h.2 "b" (by decide)⟩

/-- ASCII-lowercased copy of a string: the canonical representative of
its case-insensitive class (`asciiLowerStr s = asciiLowerStr t` exactly
when Rust's `s.eq_ignore_ascii_case(t)` holds). -/
def asciiLowerStr (s : String) : String := ⟨s.data.map asciiLower⟩

/-- Rust equality-ignoring-ASCII-case agrees with comparing lowercased
copies. -/
theorem eqIgnoreAsciiCase_iff (s t : String) :
    eqIgnoreAsciiCase s t = true ↔ asciiLowerStr s = asciiLowerStr t := by
  constructor
  · intro h
    simp only [eqIgnoreAsciiCase, beq_iff_eq] at h
    exact congrArg String.mk h
  · intro h
    have : (asciiLowerStr s).data = (asciiLowerStr t).data := by rw [h]
    simpa [eqIgnoreAsciiCase, asciiLowerStr] using this

/-- C5: congestion-controller parsing is case-insensitive and total
over the three variants — any casing of `cubic` yields `Cubic`, any
casing of `new_reno` or `newreno` yields `NewReno`, any casing of `bbr`
yields `Bbr`, and every other string yields the
invalid-congestion-controller error.  (A string is a casing of `w`
exactly when its ASCII lowercasing is `w`.) -/
theorem C5_congestion_controller_total (s : String) :
    (asciiLowerStr s = "cubic" →
      CongestionController.from_str s = Except.ok CongestionController.cubic) ∧
    (asciiLowerStr s = "new_reno" ∨ asciiLowerStr s = "newreno" →
      CongestionController.from_str s = Except.ok CongestionController.newReno) ∧
    (asciiLowerStr s = "bbr" →
      CongestionController.from_str s = Except.ok CongestionController.bbr) ∧
    (asciiLowerStr s ≠ "cubic" → asciiLowerStr s ≠ "new_reno" → asciiLowerStr s ≠ "newreno" →
      asciiLowerStr s ≠ "bbr" →
      CongestionController.from_str s = Except.error ConfigError.invalidCongestionController) := by
  have key : ∀ t : String, eqIgnoreAsciiCase s t = true ↔ asciiLowerStr s = asciiLowerStr t :=
    fun t => eqIgnoreAsciiCase_iff s t
  unfold CongestionController.from_str
  split_ifs with h1 h2 h3
  · have hs : asciiLowerStr s = "cubic" := by
      have := (key "cubic").mp h1
      rw [this]; decide
    refine ⟨fun _ => rfl, ?_, ?_, ?_⟩
    · rintro (h | h) <;> exact absurd (hs.symm.trans h) (by decide)
    · intro h
      exact absurd (hs.symm.trans h) (by decide)
    · intro hc _ _ _
      exact absurd hs hc
  · have hs : asciiLowerStr s = "new_reno" ∨ asciiLowerStr s = "newreno" := by
      rcases Bool.or_eq_true_iff.mp h2 with h | h
      · left
        have := (key "new_reno").mp h
        rw [this]; decide
      · right
        have := (key "newreno").mp h
        rw [this]; decide
    refine ⟨?_, fun _ => rfl, ?_, ?_⟩
    · intro h
      rcases hs with hs | hs <;> exact absurd (hs.symm.trans h) (by decide)
    · intro h
      rcases hs with hs | hs <;> exact absurd (hs.symm.trans h) (by decide)
    · intro _ hn1 hn2 _
      rcases hs with hs | hs
      · exact absurd hs hn1
      · exact absurd hs hn2
  · have hs : asciiLowerStr s = "bbr" := by
      have := (key "bbr").mp h3
      rw [this]; decide
    refine ⟨?_, ?_, fun _ => rfl, ?_⟩
    · intro h
      exact absurd (hs.symm.trans h) (by decide)
    · rintro (h | h) <;> exact absurd (hs.symm.trans h) (by decide)
    · intro _ _ _ hb
      exact absurd hs hb
  · refine ⟨?_, ?_, ?_, fun _ _ _ _ => rfl⟩
    · intro h
      exact absurd ((key "cubic").mpr (by rw [h]; decide)) (by simpa using h1)
    · rintro (h | h)
      · have := (key "new_reno").mpr (by rw [h]; decide)
        have h2' : (eqIgnoreAsciiCase s "new_reno" || eqIgnoreAsciiCase s "newreno") = true := by
          simp [this]
        exact absurd h2' (by simpa using h2)
      · have := (key "newreno").mpr (by rw [h]; decide)
        have h2' : (eqIgnoreAsciiCase s "new_reno" || eqIgnoreAsciiCase s "newreno") = true := by
          simp [this]
        exact absurd h2' (by simpa using h2)
    · intro h
      exact absurd ((key "bbr").mpr (by rw [h]; decide)) (by simpa using h3)

/-- Witness for C5 at concrete inputs: a mixed casing of each variant
name and an unrecognized name. -/
theorem C5_witness :
    CongestionController.from_str "CuBiC" = Except.ok CongestionController.cubic ∧
    CongestionController.from_str "NEWRENO" = Except.ok CongestionController.newReno ∧
    CongestionController.from_str "New_Reno" = Except.ok CongestionController.newReno ∧
    CongestionController.from_str "bBr" = Except.ok CongestionController.bbr ∧
    CongestionController.from_str "turbo" = Except.error ConfigError.invalidCongestionController :=
  ⟨(C5_congestion_controller_total "CuBiC").1 (by decide),
   (C5_congestion_controller_total "NEWRENO").2.1 (Or.inr (by decide)),
   (C5_congestion_controller_total "New_Reno").2.1 (Or.inl (by decide)),
   (C5_congestion_controller_total "bBr").2.2.1 (by decide),
   (C5_congestion_controller_total "turbo").2.2.2 (by decide) (by decide) (by decide) (by decide)⟩

/-- C2: an argument list that supplies the four required fields
directly, no config file and no optional overrides, and parses
successfully yields every documented default: cubic controller,
15000 ms idle, 1000 (ms) authentication timeout, 1536-byte UDP cap,
IPv6 disabled, info log level. -/
theorem C2_defaults (fs : String → Option Json) (m : Matches) (raw : RawConfig)
    (hh : m.help = false) (hv : m.version = false) (hf : m.free = [])
    (hc : m.config = none)
    (_hp : m.port.isSome) (_ht : m.token.isSome) (_hcert : m.certificate.isSome)
    (_hpk : m.private_key.isSome)
    (hcc : m.congestion_controller = none) (hit : m.max_idle_time = none)
    (hat : m.authentication_timeout = none) (hud : m.max_udp_packet_size = none)
    (hip : m.enable_ipv6 = false) (hll : m.log_level = none)
    (hok : RawConfig.parse fs m = Except.ok raw) :
    raw.congestion_controller = CongestionController.cubic ∧
    raw.max_idle_time = 15000 ∧ raw.authentication_timeout = 1000 ∧
    raw.max_udp_packet_size = 1536 ∧ raw.enable_ipv6 = false ∧
    raw.log_level = LevelFilter.info := by
  obtain ⟨raw1, hbranch, hov⟩ := parse_ok_inv hh hv hf hok
  obtain ⟨_, _, _, _, he, hccn, _, hin, _, han, _, hun, _, hln, _⟩ := applyOverrides_ok_inv hov
  rcases hbranch with ⟨_, hreq⟩ | ⟨path, raw0, hc', _, _⟩
  · obtain ⟨p, t', c', k', _, _, _, _, rfl⟩ := requiredFromCli_ok_inv hreq
    refine ⟨?_, ?_, ?_, ?_, ?_, ?_⟩
    · rw [hccn hcc]
      rfl
    · rw [hin hit]
      rfl
    · rw [han hat]
      rfl
    · rw [hun hud]
      rfl
    · rw [he, hip]
      rfl
    · rw [hln hll]
      rfl
  · rw [hc] at hc'
    simp at hc'

/-- Matches for the all-defaults scenario: the four required fields on
the CLI, nothing else. -/
def mDefaults : Matches where
  help := false
  version := false
  free := []
  config := none
  port := some "443"
  token := some "tok"
  certificate := some "cert.pem"
  private_key := some "key.pem"
  congestion_controller := none
  max_idle_time := none
  authentication_timeout := none
  max_udp_packet_size := none
  enable_ipv6 := false
  log_level := none

/-- Parse result of `mDefaults`: required fields set, every other
field the library default. -/
def rawDefaults : RawConfig :=
  { RawConfig.default with
    port := some 443, token := some "tok", certificate := some "cert.pem",
    private_key := some "key.pem" }

/-- Witness for C2 at a concrete input. -/
theorem C2_witness :
    RawConfig.parse fsEmpty mDefaults = Except.ok rawDefaults ∧
    rawDefaults.congestion_controller = CongestionController.cubic ∧
    rawDefaults.max_idle_time = 15000 ∧ rawDefaults.authentication_timeout = 1000 ∧
    rawDefaults.max_udp_packet_size = 1536 ∧ rawDefaults.enable_ipv6 = false ∧
    rawDefaults.log_level = LevelFilter.info := by
  have hok : RawConfig.parse fsEmpty mDefaults = Except.ok rawDefaults := by decide
  exact ⟨hok, C2_defaults fsEmpty mDefaults rawDefaults rfl rfl rfl rfl rfl rfl rfl rfl rfl rfl
    rfl rfl rfl rfl hok⟩

/-- C6: the `--enable-ipv6` flag can only enable, never disable: when
the flag is present the merged configuration has `enable_ipv6 = true`
whatever the file or default said; when it is absent the file's value
(config file given) or the default (no config file) is kept
unchanged. -/
theorem C6_enable_ipv6 (fs : String → Option Json) (m : Matches)
    (hh : m.help = false) (hv : m.version = false) (hf : m.free = []) :
    (m.enable_ipv6 = true →
      ∀ raw, RawConfig.parse fs m = Except.ok raw → raw.enable_ipv6 = true) ∧
    (m.enable_ipv6 = false →
      (m.config = none → ∀ raw, RawConfig.parse fs m = Except.ok raw →
        raw.enable_ipv6 = default.enable_ipv6) ∧
      (∀ path raw0, m.config = some path → RawConfig.from_file fs path = Except.ok raw0 →
        ∀ raw, RawConfig.parse fs m = Except.ok raw → raw.enable_ipv6 = raw0.enable_ipv6)) := by
  constructor
  · intro hflag raw hok
    obtain ⟨raw1, _, hov⟩ := parse_ok_inv hh hv hf hok
    have he := (applyOverrides_ok_inv hov).2.2.2.2.1
    rw [he, hflag, Bool.or_true]
  · intro hflag
    constructor
    · intro hc raw hok
      obtain ⟨raw1, hbr, hov⟩ := parse_ok_inv hh hv hf hok
      have he := (applyOverrides_ok_inv hov).2.2.2.2.1
      rcases hbr with ⟨_, hreq⟩ | ⟨path, raw0, hc', _, _⟩
      · obtain ⟨p, t, c, k, _, _, _, _, rfl⟩ := requiredFromCli_ok_inv hreq
        rw [he, hflag]
        rfl
      · rw [hc] at hc'
        simp at hc'
    · intro path raw0 hc hfile raw hok
      obtain ⟨raw1, hbr, hov⟩ := parse_ok_inv hh hv hf hok
      have he := (applyOverrides_ok_inv hov).2.2.2.2.1
      rcases hbr with ⟨hcn, _⟩ | ⟨path', raw0', hc', hfile', hmerge⟩
      · rw [hcn] at hc
        simp at hc
      · rw [hc] at hc'
        obtain rfl : path = path' := Option.some.inj hc'
        rw [hfile] at hfile'
        obtain rfl : raw0 = raw0' := Except.ok.inj hfile'
        obtain ⟨po, p, t, c, k, _, _, _, _, _, rfl⟩ := mergeWithFile_ok_inv hmerge
        rw [he, hflag]
        simp

/-- Matches with the IPv6 flag set and required fields on the CLI. -/
def mIpv6Flag : Matches := { mDefaults with enable_ipv6 := true }

/-- Parse result of `mIpv6Flag`. -/
def rawIpv6Flag : RawConfig := { rawDefaults with enable_ipv6 := true }

/-- Witness for C6 at a concrete input. -/
theorem C6_witness :
    RawConfig.parse fsEmpty mIpv6Flag = Except.ok rawIpv6Flag ∧
    rawIpv6Flag.enable_ipv6 = true := by
  have hok : RawConfig.parse fsEmpty mIpv6Flag = Except.ok rawIpv6Flag := by decide
  exact ⟨hok, (C6_enable_ipv6 fsEmpty mIpv6Flag rfl rfl rfl).1 rfl rawIpv6Flag hok⟩

/-- C3: when a config file is given and read successfully, supplies
every field, and the CLI also supplies a field, a successful parse
holds the CLI's (parsed) value for that field, not the file's — for
the four required fields and every optional field except
`enable_ipv6`. -/
theorem C3_cli_overrides_file (fs : String → Option Json) (m : Matches) (path : String)
    (raw0 raw : RawConfig)
    (hh : m.help = false) (hv : m.version = false) (hf : m.free = [])
    (hc : m.config = some path)
    (hfile : RawConfig.from_file fs path = Except.ok raw0)
    (_hfp : raw0.port.isSome) (_hft : raw0.token.isSome) (_hfc : raw0.certificate.isSome)
    (_hfk : raw0.private_key.isSome)
    (hok : RawConfig.parse fs m = Except.ok raw) :
    (∀ s, m.port = some s → ∃ v, parseU16 s = Except.ok v ∧ raw.port = some v) ∧
    (∀ s, m.token = some s → raw.token = some s) ∧
    (∀ s, m.certificate = some s → raw.certificate = some s) ∧
    (∀ s, m.private_key = some s → raw.private_key = some s) ∧
    (∀ s, m.congestion_controller = some s →
      CongestionController.from_str s = Except.ok raw.congestion_controller) ∧
    (∀ s, m.max_idle_time = some s → parseU32 s = Except.ok raw.max_idle_time) ∧
    (∀ s, m.authentication_timeout = some s →
      parseU64 s = Except.ok raw.authentication_timeout) ∧
    (∀ s, m.max_udp_packet_size = some s →
      parseUsize s = Except.ok raw.max_udp_packet_size) ∧
    (∀ s, m.log_level = some s → LevelFilter.from_str s = Except.ok raw.log_level) := by
  obtain ⟨raw1, hbr, hov⟩ := parse_ok_inv hh hv hf hok
  obtain ⟨hP, hT, hC, hK, _, _, hccs, _, hins, _, hans, _, huns, _, hlls⟩ :=
    applyOverrides_ok_inv hov
  rcases hbr with ⟨hcn, _⟩ | ⟨path', raw0', hc', hfile', hmerge⟩
  · rw [hcn] at hc
    simp at hc
  · rw [hc] at hc'
    obtain rfl : path = path' := Option.some.inj hc'
    rw [hfile] at hfile'
    obtain rfl : raw0 = raw0' := Except.ok.inj hfile'
    obtain ⟨po, p, t, c, k, hpo, hport, htok, hcert, hpk, rfl⟩ := mergeWithFile_ok_inv hmerge
    refine ⟨?_, ?_, ?_, ?_, hccs, hins, hans, huns, hlls⟩
    · intro s hs
      have hpo' := hpo
      rw [hs] at hpo'
      simp only [Option.map] at hpo'
      rcases optionTranspose_eq_ok hpo' with ⟨h1, _⟩ | ⟨v, hv', hpov⟩
      · simp at h1
      · refine ⟨v, Option.some.inj hv', ?_⟩
        rw [hP]
        rw [hpov] at hport
        simp only [Option.or] at hport
        rw [← Option.some.inj hport]
    · intro s hs
      rw [hs] at htok
      simp only [Option.or] at htok
      rw [hT, ← Option.some.inj htok]
    · intro s hs
      rw [hs] at hcert
      simp only [Option.or] at hcert
      rw [hC, ← Option.some.inj hcert]
    · intro s hs
      rw [hs] at hpk
      simp only [Option.or] at hpk
      rw [hK, ← Option.some.inj hpk]

/-- JSON config file supplying every field, for the override witness. -/
def jsonFull : Json := Json.obj
  [("port", Json.num 9999), ("token", Json.str "filetok"),
   ("certificate", Json.str "filecert"), ("private_key", Json.str "filekey"),
   ("congestion_controller", Json.str "cubic"), ("max_idle_time", Json.num 1),
   ("authentication_timeout", Json.num 2), ("max_udp_packet_size", Json.num 3),
   ("enable_ipv6", Json.bool true), ("log_level", Json.str "warn")]

/-- Filesystem holding `jsonFull` at `cfg.json`. -/
def fsFull : String → Option Json := fun p => if p = "cfg.json" then some jsonFull else none

/-- Deserialized form of `jsonFull`. -/
def rawFull : RawConfig where
  port := some 9999
  token := some "filetok"
  certificate := some "filecert"
  private_key := some "filekey"
  congestion_controller := CongestionController.cubic
  max_idle_time := 1
  authentication_timeout := 2
  max_udp_packet_size := 3
  enable_ipv6 := true
  log_level := LevelFilter.warn

/-- Matches supplying every field on the CLI as well. -/
def mFullCli : Matches where
  help := false
  version := false
  free := []
  config := some "cfg.json"
  port := some "2000"
  token := some "clitok"
  certificate := some "clicert"
  private_key := some "clikey"
  congestion_controller := some "bbr"
  max_idle_time := some "42"
  authentication_timeout := some "77"
  max_udp_packet_size := some "999"
  enable_ipv6 := false
  log_level := some "debug"

/-- Merged result: every CLI value wins (and `enable_ipv6` stays the
file's `true`). -/
def rawFullMerged : RawConfig where
  port := some 2000
  token := some "clitok"
  certificate := some "clicert"
  private_key := some "clikey"
  congestion_controller := CongestionController.bbr
  max_idle_time := 42
  authentication_timeout := 77
  max_udp_packet_size := 999
  enable_ipv6 := true
  log_level := LevelFilter.debug

/-- Witness for C3 at a concrete input. -/
theorem C3_witness :
    RawConfig.parse fsFull mFullCli = Except.ok rawFullMerged ∧
    rawFullMerged.token = some "clitok" ∧
    rawFullMerged.certificate = some "clicert" := by
  have hok : RawConfig.parse fsFull mFullCli = Except.ok rawFullMerged := by decide
  have hfile : RawConfig.from_file fsFull "cfg.json" = Except.ok rawFull := by decide
  have h := C3_cli_overrides_file fsFull mFullCli "cfg.json" rawFull rawFullMerged
    rfl rfl rfl rfl hfile rfl rfl rfl rfl hok
  exact ⟨hok, h.2.1 "clitok" rfl, h.2.2.1 "clicert" rfl⟩

/-- C10: with a config file supplied (and readable, with a valid port
of its own), a CLI `--port` value that fails to parse as `u16` makes
parsing fail with the integer-parse error — the file's port does not
mask the malformed CLI value. -/
theorem C10_cli_port_error_not_masked (fs : String → Option Json) (m : Matches)
    (path : String) (raw0 : RawConfig) (s : String)
    (hh : m.help = false) (hv : m.version = false) (hf : m.free = [])
    (hc : m.config = some path)
    (hfile : RawConfig.from_file fs path = Except.ok raw0)
    (_hfp : raw0.port.isSome)
    (hs : m.port = some s) (hbad : parseU16 s = Except.error ConfigError.parseInt) :
    RawConfig.parse fs m = Except.error ConfigError.parseInt := by
  rw [parse_reduce fs m hh hv hf, hc, hs]
  simp [hfile, Bind.bind, Except.bind, mergeWithFile, optionTranspose, Option.map, hbad]

/-- Matches with a config file and an out-of-range CLI port. -/
def mBadPort : Matches := { mFullCli with port := some "70000" }

/-- Witness for C10 at a concrete input. -/
theorem C10_witness : RawConfig.parse fsFull mBadPort = Except.error ConfigError.parseInt :=
  C10_cli_port_error_not_masked fsFull mBadPort "cfg.json" rawFull "70000"
    rfl rfl rfl rfl (by decide) rfl rfl (by decide)

/-- Propagation of an error through `Except` bind. -/
theorem error_bind {ε α β : Type} {e : ε} {f : α → Except ε β} :
    (Except.error e : Except ε α) >>= f = Except.error e := rfl

/-- The ten field names of the `RawConfig` JSON schema. -/
def schemaFields : List String :=
  ["port", "token", "certificate", "private_key", "congestion_controller",
   "max_idle_time", "authentication_timeout", "max_udp_packet_size",
   "enable_ipv6", "log_level"]

/-- Dispatching a key outside the schema is the unknown-field error
(`deny_unknown_fields`). -/
theorem setField_unknown (b : RawConfigBuilder) (k : String) (v : Json)
    (hk : k ∉ schemaFields) :
    RawConfigBuilder.setField b k v = Except.error ("unknown field " ++ k) := by
  simp only [schemaFields, List.mem_cons, List.not_mem_nil, or_false, not_or] at hk
  obtain ⟨h1, h2, h3, h4, h5, h6, h7, h8, h9, h10⟩ := hk
  simp [RawConfigBuilder.setField, h1, h2, h3, h4, h5, h6, h7, h8, h9, h10]

/-- Processing a field list that contains a key outside the schema
never succeeds. -/
theorem setFields_unknown_field : ∀ (fields : List (String × Json)) (b : RawConfigBuilder)
    (k : String) (v : Json), (k, v) ∈ fields → k ∉ schemaFields →
    ∃ msg, RawConfigBuilder.setFields b fields = Except.error msg := by
  intro fields
  induction fields with
  | nil =>
    intro b k v hm _
    cases hm
  | cons kv rest ih =>
    intro b k v hm hk
    obtain ⟨k', v'⟩ := kv
    rcases List.mem_cons.mp hm with heq | hmem
    · obtain ⟨rfl, rfl⟩ : k = k' ∧ v = v' := Prod.mk.inj heq
      refine ⟨"unknown field " ++ k, ?_⟩
      simp [RawConfigBuilder.setFields, setField_unknown b k v hk, Bind.bind, Except.bind]
    · cases hsf : RawConfigBuilder.setField b k' v' with
      | error e =>
        exact ⟨e, by simp [RawConfigBuilder.setFields, hsf, Bind.bind, Except.bind]⟩
      | ok b' =>
        obtain ⟨msg, hmsg⟩ := ih b' k v hmem hk
        exact ⟨msg, by simp [RawConfigBuilder.setFields, hsf, Bind.bind, Except.bind, hmsg]⟩

/-- C8: reading a config file whose JSON object contains any field
name outside the declared `RawConfig` schema fails with a
config-file-parse error — unknown fields are never silently ignored. -/
theorem C8_unknown_field_rejected (fs : String → Option Json) (path : String)
    (fields : List (String × Json)) (k : String) (v : Json)
    (hfs : fs path = some (Json.obj fields))
    (hmem : (k, v) ∈ fields) (hk : k ∉ schemaFields) :
    ∃ msg, RawConfig.from_file fs path = Except.error (ConfigError.parseConfigJson msg) := by
  obtain ⟨msg, hmsg⟩ := setFields_unknown_field fields RawConfigBuilder.empty k v hmem hk
  exact ⟨msg, by simp [RawConfig.from_file, hfs, RawConfig.fromJson, hmsg]⟩

/-- Filesystem with a config file whose only field is misspelled. -/
def fsUnknown : String → Option Json :=
  fun p => if p = "cfg.json" then some (Json.obj [("portt", Json.num 1)]) else none

/-- Witness for C8 at a concrete input. -/
theorem C8_witness :
    ∃ msg, RawConfig.from_file fsUnknown "cfg.json"
      = Except.error (ConfigError.parseConfigJson msg) :=
  C8_unknown_field_rejected fsUnknown "cfg.json" [("portt", Json.num 1)] "portt" (Json.num 1)
    rfl (List.mem_singleton.mpr rfl) (by decide)

/-- Characterisation of `Option.or` returning `none`. -/
theorem or_eq_none {α : Type} {o o' : Option α} :
    o.or o' = none ↔ o = none ∧ o' = none := by
  cases o <;> simp [Option.or]

/-- Error case of `requiredFromCli`: port absent. -/
theorem requiredFromCli_error_port {port : Option (Except ConfigError Nat)}
    {tok cert pk : Option String} (h : port = none) :
    requiredFromCli port tok cert pk = Except.error (ConfigError.missingOption "port") := by
  simp [requiredFromCli, h, okOr, Bind.bind, Except.bind]

/-- Error case of `requiredFromCli`: port given and parsed, token
absent. -/
theorem requiredFromCli_error_token {port : Option (Except ConfigError Nat)}
    {tok cert pk : Option String} (v : Nat) (hport : port = some (Except.ok v))
    (h : tok = none) :
    requiredFromCli port tok cert pk = Except.error (ConfigError.missingOption "token") := by
  simp [requiredFromCli, hport, h, okOr, Bind.bind, Except.bind]

/-- Error case of `requiredFromCli`: certificate absent. -/
theorem requiredFromCli_error_cert {port : Option (Except ConfigError Nat)}
    {tok cert pk : Option String} (v : Nat) (t : String)
    (hport : port = some (Except.ok v)) (htok : tok = some t) (h : cert = none) :
    requiredFromCli port tok cert pk
      = Except.error (ConfigError.missingOption "certificate") := by
  simp [requiredFromCli, hport, htok, h, okOr, Bind.bind, Except.bind]

/-- Error case of `requiredFromCli`: private key absent. -/
theorem requiredFromCli_error_pk {port : Option (Except ConfigError Nat)}
    {tok cert pk : Option String} (v : Nat) (t c : String)
    (hport : port = some (Except.ok v)) (htok : tok = some t) (hcert : cert = some c)
    (h : pk = none) :
    requiredFromCli port tok cert pk
      = Except.error (ConfigError.missingOption "private key") := by
  simp [requiredFromCli, hport, htok, hcert, h, okOr, Bind.bind, Except.bind]

/-- Error case of `mergeWithFile`: port resolved by neither source. -/
theorem mergeWithFile_error_port {raw0 : RawConfig} {port : Option (Except ConfigError Nat)}
    {tok cert pk : Option String} {po : Option Nat}
    (hpo : optionTranspose port = Except.ok po) (h : po.or raw0.port = none) :
    mergeWithFile raw0 port tok cert pk
      = Except.error (ConfigError.missingOption "port") := by
  simp [mergeWithFile, hpo, h, okOr, Bind.bind, Except.bind]

/-- Error case of `mergeWithFile`: token resolved by neither source. -/
theorem mergeWithFile_error_token {raw0 : RawConfig} {port : Option (Except ConfigError Nat)}
    {tok cert pk : Option String} {po : Option Nat} (p : Nat)
    (hpo : optionTranspose port = Except.ok po) (hp : po.or raw0.port = some p)
    (h : tok.or raw0.token = none) :
    mergeWithFile raw0 port tok cert pk
      = Except.error (ConfigError.missingOption "token") := by
  simp [mergeWithFile, hpo, hp, h, okOr, Bind.bind, Except.bind]

/-- Error case of `mergeWithFile`: certificate resolved by neither
source. -/
theorem mergeWithFile_error_cert {raw0 : RawConfig} {port : Option (Except ConfigError Nat)}
    {tok cert pk : Option String} {po : Option Nat} (p : Nat) (t : String)
    (hpo : optionTranspose port = Except.ok po) (hp : po.or raw0.port = some p)
    (ht : tok.or raw0.token = some t) (h : cert.or raw0.certificate = none) :
    mergeWithFile raw0 port tok cert pk
      = Except.error (ConfigError.missingOption "certificate") := by
  simp [mergeWithFile, hpo, hp, ht, h, okOr, Bind.bind, Except.bind]

/-- Error case of `mergeWithFile`: private key resolved by neither
source. -/
theorem mergeWithFile_error_pk {raw0 : RawConfig} {port : Option (Except ConfigError Nat)}
    {tok cert pk : Option String} {po : Option Nat} (p : Nat) (t c : String)
    (hpo : optionTranspose port = Except.ok po) (hp : po.or raw0.port = some p)
    (ht : tok.or raw0.token = some t) (hc : cert.or raw0.certificate = some c)
    (h : pk.or raw0.private_key = none) :
    mergeWithFile raw0 port tok cert pk
      = Except.error (ConfigError.missingOption "private key") := by
  simp [mergeWithFile, hpo, hp, ht, hc, h, okOr, Bind.bind, Except.bind]

/-- Matches with two required fields missing (token and certificate)
and no config file. -/
def mMissingTwo : Matches where
  help := false
  version := false
  free := []
  config := none
  port := some "443"
  token := none
  certificate := none
  private_key := some "k"
  congestion_controller := none
  max_idle_time := none
  authentication_timeout := none
  max_udp_packet_size := none
  enable_ipv6 := false
  log_level := none

/-- C4 as stated is false: with token and certificate both missing
(and no config file), the certificate satisfies the claim's antecedent,
yet the error names `token`, not `certificate` — the checks run in a
fixed order and only the first missing field is named. -/
theorem C4_counterexample :
    mMissingTwo.certificate = none ∧ mMissingTwo.config = none ∧
    RawConfig.parse fsEmpty mMissingTwo = Except.error (ConfigError.missingOption "token") ∧
    RawConfig.parse fsEmpty mMissingTwo
      ≠ Except.error (ConfigError.missingOption "certificate") :=
  ⟨rfl, rfl, by decide, by decide⟩

/-- C4 (amended): if any required field is supplied by neither the CLI
nor the config file (and help/version are absent, no tokens are left
over, and the CLI port parses when present), parsing fails with a
missing-option error naming a field that is indeed missing from both
sources — the first such field in the order port, token, certificate,
private key; the message for the private-key field is `private key`. -/
theorem C4_missing_option_names_missing_field (fs : String → Option Json) (m : Matches)
    (hh : m.help = false) (hv : m.version = false) (hf : m.free = []) :
    (m.config = none →
      (∀ ps, m.port = some ps → ∃ v, parseU16 ps = Except.ok v) →
      (m.port = none ∨ m.token = none ∨ m.certificate = none ∨ m.private_key = none) →
      ((m.port = none ∧
          RawConfig.parse fs m = Except.error (ConfigError.missingOption "port")) ∨
        (m.token = none ∧
          RawConfig.parse fs m = Except.error (ConfigError.missingOption "token")) ∨
        (m.certificate = none ∧
          RawConfig.parse fs m = Except.error (ConfigError.missingOption "certificate")) ∨
        (m.private_key = none ∧
          RawConfig.parse fs m = Except.error (ConfigError.missingOption "private key")))) ∧
    (∀ path raw0, m.config = some path → RawConfig.from_file fs path = Except.ok raw0 →
      (∀ ps, m.port = some ps → ∃ v, parseU16 ps = Except.ok v) →
      ((m.port = none ∧ raw0.port = none) ∨ (m.token = none ∧ raw0.token = none) ∨
        (m.certificate = none ∧ raw0.certificate = none) ∨
        (m.private_key = none ∧ raw0.private_key = none)) →
      ((m.port = none ∧ raw0.port = none ∧
          RawConfig.parse fs m = Except.error (ConfigError.missingOption "port")) ∨
        (m.token = none ∧ raw0.token = none ∧
          RawConfig.parse fs m = Except.error (ConfigError.missingOption "token")) ∨
        (m.certificate = none ∧ raw0.certificate = none ∧
          RawConfig.parse fs m = Except.error (ConfigError.missingOption "certificate")) ∨
        (m.private_key = none ∧ raw0.private_key = none ∧
          RawConfig.parse fs m = Except.error (ConfigError.missingOption "private key")))) := by
  constructor
  · intro hc hpp hmiss
    have hpr : RawConfig.parse fs m
        = requiredFromCli (Option.map parseU16 m.port) m.token m.certificate m.private_key
          >>= applyOverrides m := by
      rw [parse_reduce fs m hh hv hf, hc]
    cases hp : m.port with
    | none =>
      left
      refine ⟨rfl, ?_⟩
      rw [hpr, hp, requiredFromCli_error_port (by simp), error_bind]
    | some ps =>
      obtain ⟨v, hv'⟩ := hpp ps hp
      cases ht : m.token with
      | none =>
        right; left
        refine ⟨rfl, ?_⟩
        rw [hpr, hp, ht,
          requiredFromCli_error_token v (by simp [Option.map, hv']) rfl, error_bind]
      | some t =>
        cases hcert : m.certificate with
        | none =>
          right; right; left
          refine ⟨rfl, ?_⟩
          rw [hpr, hp, ht, hcert,
            requiredFromCli_error_cert v t (by simp [Option.map, hv']) rfl rfl, error_bind]
        | some c =>
          cases hpk : m.private_key with
          | none =>
            right; right; right
            refine ⟨rfl, ?_⟩
            rw [hpr, hp, ht, hcert, hpk,
              requiredFromCli_error_pk v t c (by simp [Option.map, hv']) rfl rfl rfl,
              error_bind]
          | some k =>
            exfalso
            simp [hp, ht, hcert, hpk] at hmiss
  · intro path raw0 hc hfile hpp hmiss
    have hpr : RawConfig.parse fs m
        = mergeWithFile raw0 (Option.map parseU16 m.port) m.token m.certificate m.private_key
          >>= applyOverrides m := by
      rw [parse_reduce fs m hh hv hf, hc]
      simp [hfile, Bind.bind, Except.bind]
    obtain ⟨po, hpo, hpoiff⟩ :
        ∃ po, optionTranspose (Option.map parseU16 m.port) = Except.ok po ∧
          (po = none ↔ m.port = none) := by
      cases hp : m.port with
      | none => exact ⟨none, rfl, by simp⟩
      | some ps =>
        obtain ⟨v, hv'⟩ := hpp ps hp
        exact ⟨some v, by simp [Option.map, hv', optionTranspose], by simp⟩
    cases h1 : po.or raw0.port with
    | none =>
      obtain ⟨hpon, hfpn⟩ := or_eq_none.mp h1
      left
      refine ⟨hpoiff.mp hpon, hfpn, ?_⟩
      rw [hpr, mergeWithFile_error_port hpo h1, error_bind]
    | some p =>
      cases h2 : m.token.or raw0.token with
      | none =>
        obtain ⟨htn, hftn⟩ := or_eq_none.mp h2
        right; left
        refine ⟨htn, hftn, ?_⟩
        rw [hpr, mergeWithFile_error_token p hpo h1 h2, error_bind]
      | some t =>
        cases h3 : m.certificate.or raw0.certificate with
        | none =>
          obtain ⟨hcn, hfcn⟩ := or_eq_none.mp h3
          right; right; left
          refine ⟨hcn, hfcn, ?_⟩
          rw [hpr, mergeWithFile_error_cert p t hpo h1 h2 h3, error_bind]
        | some c =>
          cases h4 : m.private_key.or raw0.private_key with
          | none =>
            obtain ⟨hkn, hfkn⟩ := or_eq_none.mp h4
            right; right; right
            refine ⟨hkn, hfkn, ?_⟩
            rw [hpr, mergeWithFile_error_pk p t c hpo h1 h2 h3 h4, error_bind]
          | some k =>
            exfalso
            rcases hmiss with ⟨ha, hb⟩ | ⟨ha, hb⟩ | ⟨ha, hb⟩ | ⟨ha, hb⟩
            · rw [hpoiff.mpr ha, hb] at h1
              simp [Option.or] at h1
            · rw [ha, hb] at h2
              simp [Option.or] at h2
            · rw [ha, hb] at h3
              simp [Option.or] at h3
            · rw [ha, hb] at h4
              simp [Option.or] at h4

/-- Witness for the amended C4 at a concrete input (token missing,
everything else supplied, no file). -/
def mMissingToken : Matches := { mMissingTwo with certificate := some "c" }

/-- Witness for C4: applying the amended theorem at `mMissingToken`
names the missing token. -/
theorem C4_witness :
    (mMissingToken.port = none ∧
      RawConfig.parse fsEmpty mMissingToken
        = Except.error (ConfigError.missingOption "port")) ∨
    (mMissingToken.token = none ∧
      RawConfig.parse fsEmpty mMissingToken
        = Except.error (ConfigError.missingOption "token")) ∨
    (mMissingToken.certificate = none ∧
      RawConfig.parse fsEmpty mMissingToken
        = Except.error (ConfigError.missingOption "certificate")) ∨
    (mMissingToken.private_key = none ∧
      RawConfig.parse fsEmpty mMissingToken
        = Except.error (ConfigError.missingOption "private key")) :=
  (C4_missing_option_names_missing_field fsEmpty mMissingToken rfl rfl rfl).1 rfl
    (fun ps hps => by
      injection hps with h
      exact ⟨443, by rw [← h]; decide⟩)
    (Or.inr (Or.inl rfl))

/-- Certificate-loading collaborator that always succeeds. -/
def loadCertsOk : String → Option Unit := fun _ => some ()

/-- Private-key-loading collaborator that always succeeds. -/
def loadKeyOk : String → Option Unit := fun _ => some ()

/-- Rustls server-config construction collaborator that always
succeeds. -/
def withSingleCertOk : Unit → Unit → Option Unit := fun _ _ => some ()

/-- Placeholder digest collaborator (the digest's value is irrelevant
to the timeout claim). -/
def hashFixed : String → List Nat := fun _ => List.replicate 32 0

/-- Matches supplying the four required fields and an explicit
`--authentication-timeout 1000` (also the default). -/
def mAuthTimeout : Matches where
  help := false
  version := false
  free := []
  config := none
  port := some "443"
  token := some "tok"
  certificate := some "cert.pem"
  private_key := some "key.pem"
  congestion_controller := none
  max_idle_time := none
  authentication_timeout := some "1000"
  max_udp_packet_size := none
  enable_ipv6 := false
  log_level := none

/-- Final configuration the code produces for `mAuthTimeout`. -/
def cfgAuth : Config where
  server_config := { congestion_controller := CongestionController.cubic, max_idle_time := 15000 }
  port := 443
  token_digest := List.replicate 32 0
  authentication_timeout := Duration.from_secs 1000
  max_udp_packet_size := 1536
  enable_ipv6 := false
  log_level := LevelFilter.info

/-- C1 fails on the code: for the raw authentication-timeout value
1000 — documented (in the CLI help text of `config.rs` and the spec)
as milliseconds — `Config::parse` produces
`Duration::from_secs(1000)`, a 1000-second duration, not the
one-second duration the milliseconds reading requires:
`Duration::from_millis` is never applied. -/
theorem C1_authentication_timeout_seconds_not_millis :
    Config.parse loadCertsOk loadKeyOk withSingleCertOk hashFixed fsEmpty mAuthTimeout
      = Except.ok cfgAuth ∧
    cfgAuth.authentication_timeout = Duration.from_secs 1000 ∧
    Duration.from_secs 1000 = Duration.mk 1000000000000 ∧
    Duration.from_millis 1000 = Duration.mk 1000000000 ∧
    cfgAuth.authentication_timeout ≠ Duration.from_millis 1000 := by
  refine ⟨by decide, rfl, rfl, rfl, by decide⟩
